import Mathlib

/-
Verification of the OpenMTP buffer-to-error classification pipeline
(`processMtpBuffer`, `processLocalBuffer`, `sanitizeErrors` from
app/utils/processBufferOutput, shipped in the repository snapshot as
src/app/containers/HelpFaqsPage/styles/HelpPhoneNotRecognized.js).

JavaScript strings are modelled as lists of characters (`JStr`); the
case conversions model the ASCII alphabet, which covers every pattern
and message in the source.  Throwing JavaScript code is modelled with
`Except Unit`.
-/

namespace OpenMTP

/-- A JavaScript string, modelled as its list of characters. -/
abbrev JStr := List Char

/-- Embed a Lean string literal into the character-list model. -/
def jstr (s : String) : JStr := s.data

/-- ASCII model of `String.prototype.toUpperCase` on one character. -/
def jsToUpperChar (c : Char) : Char :=
  if c = 'a' then 'A' else if c = 'b' then 'B' else if c = 'c' then 'C'
  else if c = 'd' then 'D' else if c = 'e' then 'E' else if c = 'f' then 'F'
  else if c = 'g' then 'G' else if c = 'h' then 'H' else if c = 'i' then 'I'
  else if c = 'j' then 'J' else if c = 'k' then 'K' else if c = 'l' then 'L'
  else if c = 'm' then 'M' else if c = 'n' then 'N' else if c = 'o' then 'O'
  else if c = 'p' then 'P' else if c = 'q' then 'Q' else if c = 'r' then 'R'
  else if c = 's' then 'S' else if c = 't' then 'T' else if c = 'u' then 'U'
  else if c = 'v' then 'V' else if c = 'w' then 'W' else if c = 'x' then 'X'
  else if c = 'y' then 'Y' else if c = 'z' then 'Z' else c

/-- ASCII model of `String.prototype.toLowerCase` on one character. -/
def jsToLowerChar (c : Char) : Char :=
  if c = 'A' then 'a' else if c = 'B' then 'b' else if c = 'C' then 'c'
  else if c = 'D' then 'd' else if c = 'E' then 'e' else if c = 'F' then 'f'
  else if c = 'G' then 'g' else if c = 'H' then 'h' else if c = 'I' then 'i'
  else if c = 'J' then 'j' else if c = 'K' then 'k' else if c = 'L' then 'l'
  else if c = 'M' then 'm' else if c = 'N' then 'n' else if c = 'O' then 'o'
  else if c = 'P' then 'p' else if c = 'Q' then 'q' else if c = 'R' then 'r'
  else if c = 'S' then 's' else if c = 'T' then 't' else if c = 'U' then 'u'
  else if c = 'V' then 'v' else if c = 'W' then 'w' else if c = 'X' then 'x'
  else if c = 'Y' then 'y' else if c = 'Z' then 'z' else c

/-- `String.prototype.toLowerCase` over the whole string (ASCII model). -/
def toLowerJ (s : JStr) : JStr := s.map jsToLowerChar

/-- Whitespace recognised by `String.prototype.trim` (ASCII model). -/
def isWs (c : Char) : Bool :=
  c = ' ' || c = '\t' || c = '\n' || c = '\r' || c = '\x0b' || c = '\x0c'

/-- `String.prototype.trim`: drop leading and trailing whitespace. -/
def jsTrim (s : JStr) : JStr :=
  ((s.dropWhile isWs).reverse.dropWhile isWs).reverse

/-- Whether a string starts with a whitespace character. -/
def headWs : JStr → Bool
  | [] => false
  | c :: _ => isWs c

/-- `haystack.indexOf(needle) !== -1`: substring containment. -/
def containsSub (pat : JStr) : JStr → Bool
  | [] => pat.isPrefixOf []
  | c :: rest => pat.isPrefixOf (c :: rest) || containsSub pat rest

/-- Single left-to-right pass replacing every non-overlapping occurrence of
`pat` by `rep` (the semantics of a global, non-rescanning string replace).
The fuel argument makes the recursion structural; at fuel zero the rest of
the string is returned unchanged, and `s.length` fuel always suffices. -/
def replaceAllFuel (pat rep : JStr) : Nat → JStr → JStr
  | 0, s => s
  | _ + 1, [] => []
  | f + 1, c :: rest =>
    if pat ≠ [] ∧ pat.isPrefixOf (c :: rest) then
      rep ++ replaceAllFuel pat rep f ((c :: rest).drop pat.length)
    else
      c :: replaceAllFuel pat rep f rest

/-- Replace every occurrence of `pat` in `s` by `rep`, scanning once from
the left. -/
def replaceAllSub (pat rep s : JStr) : JStr := replaceAllFuel pat rep s.length s

/-- Modelled from the spec: `replaceBulk` lives in app/utils/funcs, which is
not part of the provided sources.  Per the spec's sanitizer algorithm it
removes (here: replaces) all occurrences, not anchored, of each of the given
literal substrings anywhere in the string; the find/replace lists are paired
positionally. -/
def replaceBulk (s : JStr) : List JStr → List JStr → JStr
  | [], _ => s
  | _, [] => s
  | f :: fs, r :: rs => replaceBulk (replaceAllSub f r s) fs rs

/-- JavaScript truthiness choice `a || b` on strings. -/
def jsOrStr (a b : JStr) : JStr := if a = [] then b else a

/-- `string.charAt(0).toUpperCase() + string.slice(1)`. -/
def capitalizeFirst : JStr → JStr
  | [] => []
  | c :: t => jsToUpperChar c :: t

/-- `sanitizeErrors` from the source: strip one anchored leading
`"error: "`, trim, remove every `"error:"` and `"stat failed:"`
occurrence via `replaceBulk`, trim again, then upper-case the first
character.  `none` models a `null` argument. -/
def sanitizeErrors : Option JStr → JStr
  | none => jstr "Oops.. Try again"
  | some s0 =>
    let s1 := jsTrim
      (if (jstr "error: ").isPrefixOf s0 then s0.drop (jstr "error: ").length
       else s0)
    let s2 := jsTrim (replaceBulk s1 [jstr "error:", jstr "stat failed:"] [[], []])
    capitalizeFirst s2

/-- Keys of the MTP-channel `errorTpl` object. -/
inductive MtpTplKey
  | noMtp | invalidObjectHandle | invalidStorageID | fileNotFound
  | noFilesSelected | invalidPath | noSuchFiles | writePipe
  | mtpStorageNotAccessible1 | mtpStorageNotAccessible2 | partialDeletion
deriving DecidableEq

/-- The MTP-channel `errorTpl` pattern table. -/
def errorTplMtp : MtpTplKey → JStr
  | .noMtp => jstr "No MTP device found"
  | .invalidObjectHandle => jstr "invalid response code InvalidObjectHandle"
  | .invalidStorageID => jstr "invalid response code InvalidStorageID"
  | .fileNotFound => jstr "could not find"
  | .noFilesSelected => jstr "No files selected"
  | .invalidPath => jstr "Invalid path"
  | .noSuchFiles => jstr "No such file or directory"
  | .writePipe => jstr "WritePipe"
  | .mtpStorageNotAccessible1 => jstr "MTP storage not accessible"
  | .mtpStorageNotAccessible2 => jstr "error: storage"
  | .partialDeletion => jstr "PartialDeletion"

/-- Keys of the MTP-channel `errorDictionary` object. -/
inductive MtpDictKey
  | noMtp | common | unResponsive | mtpStorageNotAccessible
  | fileNotFound | partialDeletion
deriving DecidableEq

/-- The MTP-channel `errorDictionary` message table. -/
def errorDictionaryMtp : MtpDictKey → JStr
  | .noMtp => jstr "No MTP device found."
  | .common => jstr "Oops.. Your MTP device has gone crazy! Try again."
  | .unResponsive => jstr "MTP device is not responding. Reload or reconnect device."
  | .mtpStorageNotAccessible => jstr "MTP storage not accessible."
  | .fileNotFound => jstr "File not found! Try again."
  | .partialDeletion => jstr "The path is inaccessible."

/-- The MTP-channel `checkError`: case-insensitive containment of the
template in either stringified field (stderr checked first). -/
def checkErrorMtp (errorStringified stderrStringified : JStr)
    (k : MtpTplKey) : Bool :=
  containsSub (toLowerJ (errorTplMtp k)) (toLowerJ stderrStringified) ||
  containsSub (toLowerJ (errorTplMtp k)) (toLowerJ errorStringified)

/-- A normalized MTP-channel classification result. -/
structure MtpResult where
  error : Option JStr
  throwAlert : Bool
  logError : Bool
  status : Bool
deriving DecidableEq

/-- A normalized Local-channel classification result; `status = none`
models the `status` field being absent from the returned object. -/
structure LocalResult where
  error : Option JStr
  throwAlert : Bool
  logError : Bool
  status : Option Bool
deriving DecidableEq

/-- One `log.doLog` call made by the MTP classifier: the message and the
loudness flag (`!noMtpError`). -/
structure MtpLog where
  message : JStr
  loud : Bool
deriving DecidableEq

/-- `os.EOL`, modelled as the POSIX line terminator. -/
def EOL : JStr := jstr "\n"

/-- The diagnostic message logged by the MTP classifier. -/
def mtpLogMessage (errorStringified stderrStringified : JStr) : JStr :=
  jstr "MTP buffer o/p logging;" ++ EOL ++ jstr "error: " ++
    jsTrim errorStringified ++ EOL ++ jstr "stderr: " ++
    jsTrim stderrStringified

/-- The diagnostic message logged by the Local classifier. -/
def localLogMessage (errorStringified stderrStringified : JStr) : JStr :=
  jstr "Local buffer o/p logging;" ++ EOL ++ jstr "error: " ++
    jsTrim errorStringified ++ EOL ++ jstr "stderr: " ++
    jsTrim stderrStringified

/-- `processMtpBuffer` after the two fields have been stringified: the
ordered pattern dispatch, returning the result together with the
`log.doLog` call it makes (`none` on the silent path). -/
def processMtpBufferStr (errorStringified stderrStringified : JStr) :
    MtpResult × Option MtpLog :=
  if errorStringified = [] ∧ stderrStringified = [] then
    (⟨none, false, true, true⟩, none)
  else
    (if checkErrorMtp errorStringified stderrStringified .noMtp = true then
      ⟨some (errorDictionaryMtp .noMtp), false, false, false⟩
    else if checkErrorMtp errorStringified stderrStringified .invalidObjectHandle = true then
      ⟨some (errorDictionaryMtp .unResponsive), true, true, false⟩
    else if checkErrorMtp errorStringified stderrStringified .invalidStorageID = true then
      ⟨some (errorDictionaryMtp .unResponsive), true, true, false⟩
    else if checkErrorMtp errorStringified stderrStringified .writePipe = true then
      ⟨some (errorDictionaryMtp .unResponsive), true, true, false⟩
    else if checkErrorMtp errorStringified stderrStringified .mtpStorageNotAccessible1 = true ∨
        checkErrorMtp errorStringified stderrStringified .mtpStorageNotAccessible2 = true then
      ⟨some (errorDictionaryMtp .mtpStorageNotAccessible), true, true, false⟩
    else if checkErrorMtp errorStringified stderrStringified .fileNotFound = true then
      ⟨some (sanitizeErrors (some (jsOrStr stderrStringified errorStringified))), true, true, true⟩
    else if checkErrorMtp errorStringified stderrStringified .noSuchFiles = true then
      ⟨some (errorDictionaryMtp .fileNotFound), true, true, true⟩
    else if checkErrorMtp errorStringified stderrStringified .noFilesSelected = true ∨
        checkErrorMtp errorStringified stderrStringified .invalidPath = true then
      ⟨some (sanitizeErrors (some (jsOrStr stderrStringified errorStringified))), true, true, true⟩
    else if checkErrorMtp errorStringified stderrStringified .partialDeletion = true then
      ⟨some (errorDictionaryMtp .partialDeletion), true, true, true⟩
    else
      ⟨some (errorDictionaryMtp .common), true, true, true⟩,
    some ⟨mtpLogMessage errorStringified stderrStringified,
      !(checkErrorMtp errorStringified stderrStringified .noMtp)⟩)

/-- Keys of the Local-channel `errorTpl` object.  Note there is no
`invalidPath` key: the source's `checkError('invalidPath')` dereferences
a missing property. -/
inductive LocalTplKey
  | noPerm1 | noPerm2 | commandFailed | noSuchFiles
deriving DecidableEq

/-- The Local-channel `errorTpl` pattern table. -/
def errorTplLocal : LocalTplKey → JStr
  | .noPerm1 => jstr "Operation not permitted"
  | .noPerm2 => jstr "Permission denied"
  | .commandFailed => jstr "Command failed"
  | .noSuchFiles => jstr "No such file or directory"

/-- Keys of the Local-channel `errorDictionary` object. -/
inductive LocalDictKey
  | noPerm | commandFailed | common | unResponsive | invalidPath | fileNotFound
deriving DecidableEq

/-- The Local-channel `errorDictionary` message table. -/
def errorDictionaryLocal : LocalDictKey → JStr
  | .noPerm => jstr "Operation not permitted."
  | .commandFailed => jstr "Could not complete! Try again."
  | .common => jstr "Oops.. Your device has gone crazy! Try again."
  | .unResponsive => jstr "Device is not responding! Reload"
  | .invalidPath => jstr "Invalid path"
  | .fileNotFound => jstr "File not found! Try again."

/-- The Local-channel `checkError` for the four keys present in its
`errorTpl`. -/
def checkErrorLocal (errorStringified stderrStringified : JStr)
    (k : LocalTplKey) : Bool :=
  containsSub (toLowerJ (errorTplLocal k)) (toLowerJ stderrStringified) ||
  containsSub (toLowerJ (errorTplLocal k)) (toLowerJ errorStringified)

/-- `processLocalBuffer` after stringification.  The first component is
the returned object, or `Except.error ()` when the function throws: the
`checkError('invalidPath')` call reads `errorTpl.invalidPath`, which is
`undefined` in the Local `errorTpl`, so `.toLowerCase()` raises a
TypeError for every input that reaches that check.  The second component
is the `log.doLog` call (made before the pattern checks, hence also
present when the TypeError is thrown). -/
def processLocalBufferStr (errorStringified stderrStringified : JStr) :
    Except Unit LocalResult × Option JStr :=
  if errorStringified = [] ∧ stderrStringified = [] then
    (Except.ok ⟨none, false, true, none⟩, none)
  else
    (if checkErrorLocal errorStringified stderrStringified .noPerm1 = true ∨
        checkErrorLocal errorStringified stderrStringified .noPerm2 = true then
      Except.ok ⟨some (errorDictionaryLocal .noPerm), true, true, none⟩
    else if checkErrorLocal errorStringified stderrStringified .commandFailed = true then
      Except.ok ⟨some (errorDictionaryLocal .commandFailed), true, true, none⟩
    else if checkErrorLocal errorStringified stderrStringified .noSuchFiles = true then
      Except.ok ⟨some (errorDictionaryLocal .fileNotFound), true, true, some true⟩
    else
      Except.error (),
    some (localLogMessage errorStringified stderrStringified))

/-- The values the classifiers' input contract admits: a string, an
`Error` object (carrying its `name` and `message`), or `null`. -/
inductive JSVal
  | str (s : JStr)
  | errObj (name message : JStr)
  | jsNull
deriving DecidableEq

/-- `Error.prototype.toString()`. -/
def errToString (name message : JStr) : JStr :=
  if name = [] then message
  else if message = [] then name
  else name ++ jstr ": " ++ message

/-- `(v !== null && v.toString()) || ''`: the stringification the
classifiers apply to each field. -/
def stringifyField : JSVal → JStr
  | .jsNull => []
  | .str s => s
  | .errObj n m => errToString n m

/-- `processMtpBuffer({error, stderr})` on the input-contract values. -/
def processMtpBuffer (error stderr : JSVal) : MtpResult × Option MtpLog :=
  processMtpBufferStr (stringifyField error) (stringifyField stderr)

/-- `processLocalBuffer({error, stderr})` on the input-contract values. -/
def processLocalBuffer (error stderr : JSVal) :
    Except Unit LocalResult × Option JStr :=
  processLocalBufferStr (stringifyField error) (stringifyField stderr)

/-! ### Helper lemmas about the string model -/

theorem isPrefixOf_append {p s : JStr} (t : JStr) (h : p.isPrefixOf s = true) :
    p.isPrefixOf (s ++ t) = true := by
  induction p generalizing s with
  | nil => simp
  | cons a as ih =>
    cases s with
    | nil => simp at h
    | cons b bs =>
      rw [List.isPrefixOf_cons₂, Bool.and_eq_true] at h
      show (a == b && as.isPrefixOf (bs ++ t)) = true
      rw [Bool.and_eq_true]
      exact ⟨h.1, ih h.2⟩

theorem isPrefixOf_trans {p q r : JStr} (h1 : p.isPrefixOf q = true)
    (h2 : q.isPrefixOf r = true) : p.isPrefixOf r = true := by
  induction p generalizing q r with
  | nil => simp
  | cons a as ih =>
    cases q with
    | nil => simp at h1
    | cons b bs =>
      cases r with
      | nil => simp at h2
      | cons c cs =>
        rw [List.isPrefixOf_cons₂, Bool.and_eq_true] at h1 h2 ⊢
        simp only [beq_iff_eq] at h1 h2 ⊢
        exact ⟨h1.1.trans h2.1, ih h1.2 h2.2⟩

theorem containsSub_of_isPrefixOf {p s : JStr} (h : p.isPrefixOf s = true) :
    containsSub p s = true := by
  cases s with
  | nil => exact h
  | cons c rest => simp [containsSub, h]

theorem containsSub_append_left {p : JStr} (s v : JStr)
    (h : containsSub p s = true) : containsSub p (s ++ v) = true := by
  induction s with
  | nil =>
    have hp : p.isPrefixOf [] = true := h
    cases p with
    | nil => exact containsSub_of_isPrefixOf (by simp)
    | cons a as => simp at hp
  | cons c rest ih =>
    have h' : (p.isPrefixOf (c :: rest) || containsSub p rest) = true := h
    rcases Bool.or_eq_true_iff.mp h' with hx | hx
    · exact Bool.or_eq_true_iff.mpr (Or.inl (isPrefixOf_append v hx))
    · exact Bool.or_eq_true_iff.mpr (Or.inr (ih hx))

theorem containsSub_of_dropWhile {p : JStr} (q : Char → Bool) (l : JStr)
    (h : containsSub p (l.dropWhile q) = true) : containsSub p l = true := by
  induction l with
  | nil => exact h
  | cons c rest ih =>
    by_cases hq : q c = true
    · rw [List.dropWhile_cons, if_pos hq] at h
      exact Bool.or_eq_true_iff.mpr (Or.inr (ih h))
    · rwa [List.dropWhile_cons, if_neg hq] at h

theorem dropWhile_suffix_exists (q : Char → Bool) (l : JStr) :
    ∃ u, u ++ l.dropWhile q = l := by
  induction l with
  | nil => exact ⟨[], rfl⟩
  | cons c rest ih =>
    by_cases h : q c = true
    · obtain ⟨u, hu⟩ := ih
      exact ⟨c :: u, by rw [List.dropWhile_cons, if_pos h, List.cons_append, hu]⟩
    · exact ⟨[], by rw [List.dropWhile_cons, if_neg h, List.nil_append]⟩

theorem headWs_dropWhile (l : JStr) : headWs (l.dropWhile isWs) = false := by
  induction l with
  | nil => rfl
  | cons c rest ih =>
    by_cases h : isWs c = true
    · rw [List.dropWhile_cons, if_pos h]; exact ih
    · rw [List.dropWhile_cons, if_neg h]
      exact Bool.eq_false_iff.mpr h

theorem dropWhile_eq_self_of_headWs {l : JStr} (h : headWs l = false) :
    l.dropWhile isWs = l := by
  cases l with
  | nil => rfl
  | cons c rest =>
    rw [List.dropWhile_cons, if_neg]
    exact fun hx => Bool.eq_false_iff.mp h hx

theorem dropWhile_isWs_idem (l : JStr) :
    (l.dropWhile isWs).dropWhile isWs = l.dropWhile isWs :=
  dropWhile_eq_self_of_headWs (headWs_dropWhile l)

theorem headWs_of_append {B u : JStr} (h : headWs (B ++ u) = false) :
    B = [] ∨ headWs B = false := by
  cases B with
  | nil => exact Or.inl rfl
  | cons c t => exact Or.inr h

theorem headWs_false_of_dropWhile_eq_self {l : JStr}
    (h : l.dropWhile isWs = l) : headWs l = false := by
  cases l with
  | nil => rfl
  | cons c t =>
    by_cases hc : isWs c = true
    · rw [List.dropWhile_cons, if_pos hc] at h
      have hlen : (t.dropWhile isWs).length ≤ t.length :=
        (List.dropWhile_sublist isWs).length_le
      rw [h] at hlen
      simp at hlen
    · exact Bool.eq_false_iff.mpr hc

theorem jsTrim_decompose (l : JStr) :
    ∃ u, l.dropWhile isWs = jsTrim l ++ u := by
  obtain ⟨w, hw⟩ := dropWhile_suffix_exists isWs (l.dropWhile isWs).reverse
  refine ⟨w.reverse, ?_⟩
  have := congrArg List.reverse hw
  rw [List.reverse_append, List.reverse_reverse] at this
  exact this.symm

theorem headWs_jsTrim (l : JStr) :
    jsTrim l = [] ∨ headWs (jsTrim l) = false := by
  obtain ⟨u, hu⟩ := jsTrim_decompose l
  have hh : headWs (jsTrim l ++ u) = false := by
    rw [← hu]; exact headWs_dropWhile l
  exact headWs_of_append hh

theorem jsTrim_eq_self {l : JStr} (h1 : l.dropWhile isWs = l)
    (h2 : l.reverse.dropWhile isWs = l.reverse) : jsTrim l = l := by
  unfold jsTrim
  rw [h1, h2, List.reverse_reverse]

theorem jsTrim_idem (l : JStr) : jsTrim (jsTrim l) = jsTrim l := by
  have h1 : (jsTrim l).dropWhile isWs = jsTrim l := by
    rcases headWs_jsTrim l with h | h
    · rw [h]; rfl
    · exact dropWhile_eq_self_of_headWs h
  have h2 : (jsTrim l).reverse.dropWhile isWs = (jsTrim l).reverse := by
    unfold jsTrim
    rw [List.reverse_reverse]
    exact dropWhile_isWs_idem _
  exact jsTrim_eq_self h1 h2

theorem containsSub_of_jsTrim {p l : JStr}
    (h : containsSub p (jsTrim l) = true) : containsSub p l = true := by
  obtain ⟨u, hu⟩ := jsTrim_decompose l
  have hdw : containsSub p (l.dropWhile isWs) = true := by
    rw [hu]; exact containsSub_append_left _ _ h
  exact containsSub_of_dropWhile isWs l hdw

theorem replaceAllFuel_no_occ (p rep : JStr) (f : Nat) :
    ∀ s : JStr, containsSub p s = false → replaceAllFuel p rep f s = s := by
  induction f with
  | zero => intro s _; rfl
  | succ f ih =>
    intro s h
    cases s with
    | nil => rfl
    | cons c rest =>
      have h' : (p.isPrefixOf (c :: rest) || containsSub p rest) = false := h
      rw [Bool.or_eq_false_iff] at h'
      rw [replaceAllFuel, if_neg, ih rest h'.2]
      rintro ⟨-, hpre⟩
      rw [h'.1] at hpre
      exact Bool.noConfusion hpre

theorem replaceAllSub_no_occ {p s : JStr} (rep : JStr)
    (h : containsSub p s = false) : replaceAllSub p rep s = s :=
  replaceAllFuel_no_occ p rep s.length s h

theorem replaceBulk_no_occ {s : JStr}
    (h1 : containsSub (jstr "error:") s = false)
    (h2 : containsSub (jstr "stat failed:") s = false) :
    replaceBulk s [jstr "error:", jstr "stat failed:"] [[], []] = s := by
  show replaceBulk (replaceAllSub (jstr "error:") [] s) [jstr "stat failed:"] [[]] = s
  rw [replaceAllSub_no_occ [] h1]
  show replaceAllSub (jstr "stat failed:") [] s = s
  rw [replaceAllSub_no_occ [] h2]

theorem jsToUpperChar_not_lower {c : Char}
    (h : c ∉ jstr "abcdefghijklmnopqrstuvwxyz") : jsToUpperChar c = c := by
  have ha : ¬(c = 'a') := fun hx => h (by rw [hx]; decide)
  have hb : ¬(c = 'b') := fun hx => h (by rw [hx]; decide)
  have hc : ¬(c = 'c') := fun hx => h (by rw [hx]; decide)
  have hd : ¬(c = 'd') := fun hx => h (by rw [hx]; decide)
  have he : ¬(c = 'e') := fun hx => h (by rw [hx]; decide)
  have hf : ¬(c = 'f') := fun hx => h (by rw [hx]; decide)
  have hg : ¬(c = 'g') := fun hx => h (by rw [hx]; decide)
  have hh : ¬(c = 'h') := fun hx => h (by rw [hx]; decide)
  have hi : ¬(c = 'i') := fun hx => h (by rw [hx]; decide)
  have hj : ¬(c = 'j') := fun hx => h (by rw [hx]; decide)
  have hk : ¬(c = 'k') := fun hx => h (by rw [hx]; decide)
  have hl : ¬(c = 'l') := fun hx => h (by rw [hx]; decide)
  have hm : ¬(c = 'm') := fun hx => h (by rw [hx]; decide)
  have hn : ¬(c = 'n') := fun hx => h (by rw [hx]; decide)
  have ho : ¬(c = 'o') := fun hx => h (by rw [hx]; decide)
  have hp : ¬(c = 'p') := fun hx => h (by rw [hx]; decide)
  have hq : ¬(c = 'q') := fun hx => h (by rw [hx]; decide)
  have hr : ¬(c = 'r') := fun hx => h (by rw [hx]; decide)
  have hs : ¬(c = 's') := fun hx => h (by rw [hx]; decide)
  have ht : ¬(c = 't') := fun hx => h (by rw [hx]; decide)
  have hu : ¬(c = 'u') := fun hx => h (by rw [hx]; decide)
  have hv : ¬(c = 'v') := fun hx => h (by rw [hx]; decide)
  have hw : ¬(c = 'w') := fun hx => h (by rw [hx]; decide)
  have hx : ¬(c = 'x') := fun hh' => h (by rw [hh']; decide)
  have hy : ¬(c = 'y') := fun hh' => h (by rw [hh']; decide)
  have hz : ¬(c = 'z') := fun hh' => h (by rw [hh']; decide)
  unfold jsToUpperChar
  rw [if_neg ha, if_neg hb, if_neg hc, if_neg hd, if_neg he, if_neg hf,
    if_neg hg, if_neg hh, if_neg hi, if_neg hj, if_neg hk, if_neg hl,
    if_neg hm, if_neg hn, if_neg ho, if_neg hp, if_neg hq, if_neg hr,
    if_neg hs, if_neg ht, if_neg hu, if_neg hv, if_neg hw, if_neg hx,
    if_neg hy, if_neg hz]

theorem jsToUpperChar_lower_upper :
    ∀ d, d ∈ jstr "abcdefghijklmnopqrstuvwxyz" →
      jsToUpperChar d ∈ jstr "ABCDEFGHIJKLMNOPQRSTUVWXYZ" := by decide

theorem jsToUpperChar_cases (c : Char) :
    jsToUpperChar c = c ∨ jsToUpperChar c ∈ jstr "ABCDEFGHIJKLMNOPQRSTUVWXYZ" := by
  by_cases h : c ∈ jstr "abcdefghijklmnopqrstuvwxyz"
  · exact Or.inr (jsToUpperChar_lower_upper c h)
  · exact Or.inl (jsToUpperChar_not_lower h)

theorem jsToUpperChar_idem (c : Char) :
    jsToUpperChar (jsToUpperChar c) = jsToUpperChar c := by
  by_cases h : c ∈ jstr "abcdefghijklmnopqrstuvwxyz"
  · have hu := jsToUpperChar_lower_upper c h
    have hnl : jsToUpperChar c ∉ jstr "abcdefghijklmnopqrstuvwxyz" :=
      (by decide : ∀ d, d ∈ jstr "ABCDEFGHIJKLMNOPQRSTUVWXYZ" →
        d ∉ jstr "abcdefghijklmnopqrstuvwxyz") _ hu
    exact jsToUpperChar_not_lower hnl
  · rw [jsToUpperChar_not_lower h]
    exact jsToUpperChar_not_lower h

theorem jsToUpperChar_ne_e (c : Char) : jsToUpperChar c ≠ 'e' := by
  rcases jsToUpperChar_cases c with h | h
  · rw [h]
    intro hc
    subst hc
    exact absurd h (by decide)
  · intro hc
    rw [hc] at h
    exact absurd h (by decide)

theorem jsToUpperChar_ne_s (c : Char) : jsToUpperChar c ≠ 's' := by
  rcases jsToUpperChar_cases c with h | h
  · rw [h]
    intro hc
    subst hc
    exact absurd h (by decide)
  · intro hc
    rw [hc] at h
    exact absurd h (by decide)

theorem jsToUpperChar_not_ws {c : Char} (h : isWs c = false) :
    isWs (jsToUpperChar c) = false := by
  rcases jsToUpperChar_cases c with h' | h'
  · rw [h']; exact h
  · exact (by decide :
      ∀ d, d ∈ jstr "ABCDEFGHIJKLMNOPQRSTUVWXYZ" → isWs d = false) _ h'

theorem containsSub_cons_false {p : JStr} {c : Char} {t : JStr}
    (h : containsSub p (c :: t) = false) : containsSub p t = false := by
  have h' : (p.isPrefixOf (c :: t) || containsSub p t) = false := h
  rw [Bool.or_eq_false_iff] at h'
  exact h'.2

/-- On a string with no `"error:"` and no `"stat failed:"` occurrence the
sanitizer reduces to trimming and capitalizing. -/
theorem sanitizeErrors_no_occ {x : JStr}
    (h1 : containsSub (jstr "error:") x = false)
    (h2 : containsSub (jstr "stat failed:") x = false) :
    sanitizeErrors (some x) = capitalizeFirst (jsTrim x) := by
  have hp : ((jstr "error: ").isPrefixOf x) = false := by
    cases hpp : (jstr "error: ").isPrefixOf x with
    | false => rfl
    | true =>
      have hx : (jstr "error:").isPrefixOf x = true :=
        isPrefixOf_trans (by decide) hpp
      rw [containsSub_of_isPrefixOf hx] at h1
      exact Bool.noConfusion h1
  have h1t : containsSub (jstr "error:") (jsTrim x) = false := by
    cases hc : containsSub (jstr "error:") (jsTrim x) with
    | false => rfl
    | true => rw [containsSub_of_jsTrim hc] at h1; exact Bool.noConfusion h1
  have h2t : containsSub (jstr "stat failed:") (jsTrim x) = false := by
    cases hc : containsSub (jstr "stat failed:") (jsTrim x) with
    | false => rfl
    | true => rw [containsSub_of_jsTrim hc] at h2; exact Bool.noConfusion h2
  show capitalizeFirst (jsTrim (replaceBulk (jsTrim
    (if (jstr "error: ").isPrefixOf x then x.drop (jstr "error: ").length
     else x)) [jstr "error:", jstr "stat failed:"] [[], []])) = _
  rw [if_neg (by rw [hp]; exact Bool.noConfusion)]
  rw [replaceBulk_no_occ h1t h2t, jsTrim_idem]

theorem checkErrorMtp_nil (k : MtpTplKey) : checkErrorMtp [] [] k = false := by
  cases k <;> decide

/-! ### Claim theorems -/

/-- Claim C9 (amended): the sanitizer is idempotent on every string that
contains no occurrence of `"error:"` and no occurrence of
`"stat failed:"` anywhere (the original claim only excluded a leading
`"error: "` and `"stat failed:"` occurrences, which is not enough: a
single removal pass can splice a fresh `"error:"` occurrence together). -/
theorem claimC9_amended (x : JStr)
    (h1 : containsSub (jstr "error:") x = false)
    (h2 : containsSub (jstr "stat failed:") x = false) :
    sanitizeErrors (some (sanitizeErrors (some x))) = sanitizeErrors (some x) := by
  rw [sanitizeErrors_no_occ h1 h2]
  have h1w : containsSub (jstr "error:") (jsTrim x) = false := by
    cases hc : containsSub (jstr "error:") (jsTrim x) with
    | false => rfl
    | true => rw [containsSub_of_jsTrim hc] at h1; exact Bool.noConfusion h1
  have h2w : containsSub (jstr "stat failed:") (jsTrim x) = false := by
    cases hc : containsSub (jstr "stat failed:") (jsTrim x) with
    | false => rfl
    | true => rw [containsSub_of_jsTrim hc] at h2; exact Bool.noConfusion h2
  have hwtrim : jsTrim (jsTrim x) = jsTrim x := jsTrim_idem x
  have hhead := headWs_jsTrim x
  cases hwc : jsTrim x with
  | nil =>
    show sanitizeErrors (some (capitalizeFirst [])) = capitalizeFirst []
    decide
  | cons c t =>
    rw [hwc] at h1w h2w hwtrim hhead
    have hcws : isWs c = false := by
      rcases hhead with h | h
      · exact List.noConfusion h
      · exact h
    have h1t : containsSub (jstr "error:") t = false := containsSub_cons_false h1w
    have h2t : containsSub (jstr "stat failed:") t = false := containsSub_cons_false h2w
    show sanitizeErrors (some (jsToUpperChar c :: t)) = jsToUpperChar c :: t
    have hpre1 : (jstr "error:").isPrefixOf (jsToUpperChar c :: t) = false := by
      show (('e' == jsToUpperChar c) && (jstr "rror:").isPrefixOf t) = false
      have hb : ('e' == jsToUpperChar c) = false := by
        rw [beq_eq_false_iff_ne]
        exact fun hh => jsToUpperChar_ne_e c hh.symm
      rw [hb, Bool.false_and]
    have hpre2 : (jstr "stat failed:").isPrefixOf (jsToUpperChar c :: t) = false := by
      show (('s' == jsToUpperChar c) && (jstr "tat failed:").isPrefixOf t) = false
      have hb : ('s' == jsToUpperChar c) = false := by
        rw [beq_eq_false_iff_ne]
        exact fun hh => jsToUpperChar_ne_s c hh.symm
      rw [hb, Bool.false_and]
    have h1y : containsSub (jstr "error:") (jsToUpperChar c :: t) = false := by
      show ((jstr "error:").isPrefixOf (jsToUpperChar c :: t) ||
        containsSub (jstr "error:") t) = false
      rw [hpre1, h1t]
      rfl
    have h2y : containsSub (jstr "stat failed:") (jsToUpperChar c :: t) = false := by
      show ((jstr "stat failed:").isPrefixOf (jsToUpperChar c :: t) ||
        containsSub (jstr "stat failed:") t) = false
      rw [hpre2, h2t]
      rfl
    rw [sanitizeErrors_no_occ h1y h2y]
    have hf1 : (c :: t).dropWhile isWs = c :: t :=
      dropWhile_eq_self_of_headWs hcws
    have hf2 : (c :: t).reverse.dropWhile isWs = (c :: t).reverse := by
      have h0 := hwtrim
      unfold jsTrim at h0
      rw [hf1] at h0
      have h0' := congrArg List.reverse h0
      rw [List.reverse_reverse] at h0'
      exact h0'
    have hg1 : (jsToUpperChar c :: t).dropWhile isWs = jsToUpperChar c :: t :=
      dropWhile_eq_self_of_headWs (jsToUpperChar_not_ws hcws)
    have hg2 : (jsToUpperChar c :: t).reverse.dropWhile isWs =
        (jsToUpperChar c :: t).reverse := by
      rw [List.reverse_cons] at hf2 ⊢
      cases htrev : t.reverse with
      | nil =>
        simp only [List.nil_append]
        rw [List.dropWhile_cons, if_neg]
        intro hx
        rw [jsToUpperChar_not_ws hcws] at hx
        exact Bool.noConfusion hx
      | cons d ds =>
        rw [htrev] at hf2
        have hhd : headWs ((d :: ds) ++ [c]) = false :=
          headWs_false_of_dropWhile_eq_self hf2
        have hd' : isWs d = false := hhd
        show List.dropWhile isWs (d :: (ds ++ [jsToUpperChar c])) =
          d :: (ds ++ [jsToUpperChar c])
        rw [List.dropWhile_cons, if_neg]
        intro hx
        rw [hd'] at hx
        exact Bool.noConfusion hx
    rw [jsTrim_eq_self hg1 hg2]
    show jsToUpperChar (jsToUpperChar c) :: t = jsToUpperChar c :: t
    rw [jsToUpperChar_idem]

/-- Witness for claim C9: the amended idempotence applied to a concrete
string satisfying both hypotheses. -/
theorem claimC9_witness :
    sanitizeErrors (some (sanitizeErrors (some (jstr " hello world ")))) =
      sanitizeErrors (some (jstr " hello world ")) :=
  claimC9_amended (jstr " hello world ") (by decide) (by decide)

/-- Counterexample for claim C9 as stated: `"aerrerror:or:"` does not
start with `"error: "` and does not contain `"stat failed:"`, yet a
first sanitizer pass splices together a fresh `"error:"` occurrence
(yielding `"Aerror:"`), so a second pass changes the string again. -/
theorem claimC9_counterexample :
    ((jstr "error: ").isPrefixOf (jstr "aerrerror:or:") = false ∧
      containsSub (jstr "stat failed:") (jstr "aerrerror:or:") = false) ∧
    sanitizeErrors (some (sanitizeErrors (some (jstr "aerrerror:or:")))) ≠
      sanitizeErrors (some (jstr "aerrerror:or:")) := by decide

/-- Claim C1 (code bug): the spec's propagation policy says neither
classifier ever throws, but `processLocalBuffer` raises a TypeError on
every non-empty input that matches none of its first four patterns
(its `errorTpl` has no `invalidPath` key, so `checkError('invalidPath')`
calls `.toLowerCase()` on `undefined`).  Evaluated at the failing input
`{error: "hello", stderr: null}`: the Local classifier throws while the
MTP classifier does return a structured result. -/
theorem claimC1_local_throws :
    (processLocalBuffer (.str (jstr "hello")) .jsNull).1 = Except.error () ∧
    (processMtpBuffer (.str (jstr "hello")) .jsNull).1 =
      ⟨some (jstr "Oops.. Your MTP device has gone crazy! Try again."),
        true, true, true⟩ :=
  ⟨rfl, by decide⟩

/-- Claim C3 (code bug): the input `"weird failure xyz"` is non-empty
and matches none of the four Local patterns, yet the classifier throws
at the `invalidPath` check instead of returning the generic catch-all
message (the `common` branch is unreachable). -/
theorem claimC3_common_unreachable :
    (checkErrorLocal (jstr "weird failure xyz") [] .noPerm1 = false ∧
      checkErrorLocal (jstr "weird failure xyz") [] .noPerm2 = false ∧
      checkErrorLocal (jstr "weird failure xyz") [] .commandFailed = false ∧
      checkErrorLocal (jstr "weird failure xyz") [] .noSuchFiles = false) ∧
    (processLocalBufferStr (jstr "weird failure xyz") []).1 = Except.error () :=
  ⟨by decide, rfl⟩

/-- Counterexample for claim C2 as stated: `{error: "Command failed: mv",
stderr: null}` is a non-silent Local input whose result omits the
`status` field (`status = none`) instead of carrying `status: true`. -/
theorem claimC2_counterexample :
    jstr "Command failed: mv" ≠ [] ∧
    (processLocalBufferStr (jstr "Command failed: mv") []).1 =
      Except.ok ⟨some (jstr "Could not complete! Try again."), true, true, none⟩ :=
  ⟨by decide, rfl⟩

/-- Claim C2 (amended): the Local silent-success result omits `status`;
among the results the Local classifier actually returns, only the
NoSuchFile branch carries `status: true` (together with the fixed
file-not-found message) — the NoPermission and CommandFailed results
omit `status` as well, and unmatched inputs throw. -/
theorem claimC2_amended :
    ((processLocalBufferStr [] []).1 =
      Except.ok ⟨none, false, true, none⟩) ∧
    (∀ e s r, (processLocalBufferStr e s).1 = Except.ok r →
      r.status = none ∨
        (r.status = some true ∧
          r.error = some (jstr "File not found! Try again."))) := by
  refine ⟨rfl, ?_⟩
  intro e s r hr
  unfold processLocalBufferStr at hr
  by_cases hes : e = [] ∧ s = []
  · rw [if_pos hes] at hr
    have hr' : Except.ok (⟨none, false, true, none⟩ : LocalResult) =
      Except.ok r := hr
    injection hr' with h
    rw [← h]
    exact Or.inl rfl
  · rw [if_neg hes] at hr
    by_cases h1 : checkErrorLocal e s .noPerm1 = true ∨
        checkErrorLocal e s .noPerm2 = true
    · rw [if_pos h1] at hr
      have hr' : Except.ok
          (⟨some (errorDictionaryLocal .noPerm), true, true, none⟩ :
            LocalResult) = Except.ok r := hr
      injection hr' with h
      rw [← h]
      exact Or.inl rfl
    · rw [if_neg h1] at hr
      by_cases h2 : checkErrorLocal e s .commandFailed = true
      · rw [if_pos h2] at hr
        have hr' : Except.ok
            (⟨some (errorDictionaryLocal .commandFailed), true, true, none⟩ :
              LocalResult) = Except.ok r := hr
        injection hr' with h
        rw [← h]
        exact Or.inl rfl
      · rw [if_neg h2] at hr
        by_cases h3 : checkErrorLocal e s .noSuchFiles = true
        · rw [if_pos h3] at hr
          have hr' : Except.ok
              (⟨some (errorDictionaryLocal .fileNotFound), true, true,
                some true⟩ : LocalResult) = Except.ok r := hr
          injection hr' with h
          rw [← h]
          exact Or.inr ⟨rfl, rfl⟩
        · rw [if_neg h3] at hr
          have hr' : (Except.error () : Except Unit LocalResult) =
            Except.ok r := hr
          exact Except.noConfusion hr'

/-- Witness for claim C2: the amended statement applied to the concrete
NoSuchFile input. -/
theorem claimC2_amended_witness :
    (⟨some (jstr "File not found! Try again."), true, true, some true⟩ :
        LocalResult).status = none ∨
      ((⟨some (jstr "File not found! Try again."), true, true, some true⟩ :
          LocalResult).status = some true ∧
        (⟨some (jstr "File not found! Try again."), true, true, some true⟩ :
          LocalResult).error = some (jstr "File not found! Try again.")) :=
  claimC2_amended.2 (jstr "No such file or directory") [] _ rfl

/-- Counterexample for claim C4 as stated: `{error: "error: Invalid path
abc", stderr: null}` matches the `Invalid path` template and none of the
four higher-priority Local kinds, yet the classifier throws (no result
at all is produced, in particular not the sanitized dynamic text). -/
theorem claimC4_counterexample :
    (containsSub (toLowerJ (jstr "Invalid path"))
        (toLowerJ (jstr "error: Invalid path abc")) = true ∧
      checkErrorLocal (jstr "error: Invalid path abc") [] .noPerm1 = false ∧
      checkErrorLocal (jstr "error: Invalid path abc") [] .noPerm2 = false ∧
      checkErrorLocal (jstr "error: Invalid path abc") [] .commandFailed = false ∧
      checkErrorLocal (jstr "error: Invalid path abc") [] .noSuchFiles = false) ∧
    (processLocalBufferStr (jstr "error: Invalid path abc") []).1 =
      Except.error () :=
  ⟨by decide, rfl⟩

/-- Claim C4 (amended): a Local input that would match the intended
InvalidPath kind makes the classifier throw instead of returning any
result (and the branch as written would have returned the raw
`errorStringified`, not sanitized text); every error string a classifier
actually returns is `null`, a fixed dictionary message, or (on the MTP
channel) the sanitizer's output on the raw text — Local results never
expose raw device text only because the raw-text branch is dead. -/
theorem claimC4_amended :
    (∀ e s r, (processLocalBufferStr e s).1 = Except.ok r →
      r.error = none ∨
      r.error = some (jstr "Operation not permitted.") ∨
      r.error = some (jstr "Could not complete! Try again.") ∨
      r.error = some (jstr "File not found! Try again.")) ∧
    (∀ e s, (processMtpBufferStr e s).1.error = none ∨
      (processMtpBufferStr e s).1.error = some (jstr "No MTP device found.") ∨
      (processMtpBufferStr e s).1.error =
        some (jstr "MTP device is not responding. Reload or reconnect device.") ∨
      (processMtpBufferStr e s).1.error =
        some (jstr "MTP storage not accessible.") ∨
      (processMtpBufferStr e s).1.error =
        some (jstr "File not found! Try again.") ∨
      (processMtpBufferStr e s).1.error =
        some (jstr "The path is inaccessible.") ∨
      (processMtpBufferStr e s).1.error =
        some (jstr "Oops.. Your MTP device has gone crazy! Try again.") ∨
      (processMtpBufferStr e s).1.error =
        some (sanitizeErrors (some (jsOrStr s e)))) := by
  constructor
  · intro e s r hr
    unfold processLocalBufferStr at hr
    by_cases hes : e = [] ∧ s = []
    · rw [if_pos hes] at hr
      have hr' : Except.ok (⟨none, false, true, none⟩ : LocalResult) =
        Except.ok r := hr
      injection hr' with h
      rw [← h]
      exact Or.inl rfl
    · rw [if_neg hes] at hr
      by_cases h1 : checkErrorLocal e s .noPerm1 = true ∨
          checkErrorLocal e s .noPerm2 = true
      · rw [if_pos h1] at hr
        have hr' : Except.ok
            (⟨some (errorDictionaryLocal .noPerm), true, true, none⟩ :
              LocalResult) = Except.ok r := hr
        injection hr' with h
        rw [← h]
        exact Or.inr (Or.inl rfl)
      · rw [if_neg h1] at hr
        by_cases h2 : checkErrorLocal e s .commandFailed = true
        · rw [if_pos h2] at hr
          have hr' : Except.ok
              (⟨some (errorDictionaryLocal .commandFailed), true, true,
                none⟩ : LocalResult) = Except.ok r := hr
          injection hr' with h
          rw [← h]
          exact Or.inr (Or.inr (Or.inl rfl))
        · rw [if_neg h2] at hr
          by_cases h3 : checkErrorLocal e s .noSuchFiles = true
          · rw [if_pos h3] at hr
            have hr' : Except.ok
                (⟨some (errorDictionaryLocal .fileNotFound), true, true,
                  some true⟩ : LocalResult) = Except.ok r := hr
            injection hr' with h
            rw [← h]
            exact Or.inr (Or.inr (Or.inr rfl))
          · rw [if_neg h3] at hr
            exact Except.noConfusion hr
  · intro e s
    unfold processMtpBufferStr
    by_cases h0 : e = [] ∧ s = []
    · rw [if_pos h0]
      exact Or.inl rfl
    · rw [if_neg h0]
      by_cases h1 : checkErrorMtp e s .noMtp = true
      · rw [if_pos h1]
        exact Or.inr (Or.inl rfl)
      · rw [if_neg h1]
        by_cases h2 : checkErrorMtp e s .invalidObjectHandle = true
        · rw [if_pos h2]
          exact Or.inr (Or.inr (Or.inl rfl))
        · rw [if_neg h2]
          by_cases h3 : checkErrorMtp e s .invalidStorageID = true
          · rw [if_pos h3]
            exact Or.inr (Or.inr (Or.inl rfl))
          · rw [if_neg h3]
            by_cases h4 : checkErrorMtp e s .writePipe = true
            · rw [if_pos h4]
              exact Or.inr (Or.inr (Or.inl rfl))
            · rw [if_neg h4]
              by_cases h5 : checkErrorMtp e s .mtpStorageNotAccessible1 = true ∨
                  checkErrorMtp e s .mtpStorageNotAccessible2 = true
              · rw [if_pos h5]
                exact Or.inr (Or.inr (Or.inr (Or.inl rfl)))
              · rw [if_neg h5]
                by_cases h6 : checkErrorMtp e s .fileNotFound = true
                · rw [if_pos h6]
                  exact Or.inr (Or.inr (Or.inr (Or.inr (Or.inr (Or.inr
                    (Or.inr rfl))))))
                · rw [if_neg h6]
                  by_cases h7 : checkErrorMtp e s .noSuchFiles = true
                  · rw [if_pos h7]
                    exact Or.inr (Or.inr (Or.inr (Or.inr (Or.inl rfl))))
                  · rw [if_neg h7]
                    by_cases h8 : checkErrorMtp e s .noFilesSelected = true ∨
                        checkErrorMtp e s .invalidPath = true
                    · rw [if_pos h8]
                      exact Or.inr (Or.inr (Or.inr (Or.inr (Or.inr (Or.inr
                        (Or.inr rfl))))))
                    · rw [if_neg h8]
                      by_cases h9 : checkErrorMtp e s .partialDeletion = true
                      · rw [if_pos h9]
                        exact Or.inr (Or.inr (Or.inr (Or.inr (Or.inr
                          (Or.inl rfl)))))
                      · rw [if_neg h9]
                        exact Or.inr (Or.inr (Or.inr (Or.inr (Or.inr (Or.inr
                          (Or.inl rfl))))))

/-- Witness for claim C4: the amended enumeration applied to concrete
inputs on both channels. -/
theorem claimC4_amended_witness :
    ((⟨some (jstr "Operation not permitted."), true, true, none⟩ :
        LocalResult).error = none ∨
      (⟨some (jstr "Operation not permitted."), true, true, none⟩ :
        LocalResult).error = some (jstr "Operation not permitted.") ∨
      (⟨some (jstr "Operation not permitted."), true, true, none⟩ :
        LocalResult).error = some (jstr "Could not complete! Try again.") ∨
      (⟨some (jstr "Operation not permitted."), true, true, none⟩ :
        LocalResult).error = some (jstr "File not found! Try again.")) :=
  claimC4_amended.1 (jstr "Permission denied") [] _ rfl

/-- Counterexample for claim C5 as stated: the raw input `"storage not
accessible"` contains the claim's substring but not the code's template
`"MTP storage not accessible"`, so it falls through to the common
catch-all; and an input containing both the no-MTP-device substring and
`"error: storage"` resolves to the NoDevice result, not the storage
result. -/
theorem claimC5_counterexample :
    (containsSub (toLowerJ (jstr "storage not accessible"))
        (toLowerJ (jstr "storage not accessible")) = true ∧
      (processMtpBufferStr (jstr "storage not accessible") []).1 =
        ⟨some (jstr "Oops.. Your MTP device has gone crazy! Try again."),
          true, true, true⟩ ∧
      (⟨some (jstr "Oops.. Your MTP device has gone crazy! Try again."),
          true, true, true⟩ : MtpResult) ≠
        ⟨some (jstr "MTP storage not accessible."), true, true, false⟩) ∧
    (containsSub (toLowerJ (jstr "error: storage"))
        (toLowerJ (jstr "No MTP device found error: storage")) = true ∧
      (processMtpBufferStr (jstr "No MTP device found error: storage") []).1 =
        ⟨some (jstr "No MTP device found."), false, false, false⟩ ∧
      (⟨some (jstr "No MTP device found."), false, false, false⟩ :
          MtpResult) ≠
        ⟨some (jstr "MTP storage not accessible."), true, true, false⟩) := by
  decide

/-- Claim C5 (amended): an MTP input matching the `"MTP storage not
accessible"` or `"error: storage"` template (case-insensitive) and none
of the four higher-priority patterns (no-MTP-device, InvalidObjectHandle,
InvalidStorageID, WritePipe) yields exactly
`{error: "MTP storage not accessible.", throwAlert: true,
logError: true, status: false}`. -/
theorem claimC5_amended (e s : JStr)
    (hstor : checkErrorMtp e s .mtpStorageNotAccessible1 = true ∨
      checkErrorMtp e s .mtpStorageNotAccessible2 = true)
    (h1 : checkErrorMtp e s .noMtp = false)
    (h2 : checkErrorMtp e s .invalidObjectHandle = false)
    (h3 : checkErrorMtp e s .invalidStorageID = false)
    (h4 : checkErrorMtp e s .writePipe = false) :
    (processMtpBufferStr e s).1 =
      ⟨some (jstr "MTP storage not accessible."), true, true, false⟩ := by
  have hne : ¬(e = [] ∧ s = []) := by
    rintro ⟨rfl, rfl⟩
    rcases hstor with h | h <;>
      (rw [checkErrorMtp_nil] at h; exact Bool.noConfusion h)
  unfold processMtpBufferStr
  rw [if_neg hne, if_neg (by simp [h1]), if_neg (by simp [h2]),
    if_neg (by simp [h3]), if_neg (by simp [h4]), if_pos hstor]
  rfl

/-- Witness for claim C5: the amended statement at the concrete input
`{error: "error: storage", stderr: null}`. -/
theorem claimC5_amended_witness :
    (processMtpBufferStr (jstr "error: storage") []).1 =
      ⟨some (jstr "MTP storage not accessible."), true, true, false⟩ :=
  claimC5_amended (jstr "error: storage") [] (by decide) (by decide)
    (by decide) (by decide) (by decide)

/-- Counterexample for claim C6 as stated: the PartialDeletion kind
returns the fixed dictionary message `"The path is inaccessible."`, not
a message derived from the sanitized raw text; and an input containing
both the FileNotFound substring and the no-MTP-device substring resolves
to the NoDevice result with `status: false`. -/
theorem claimC6_counterexample :
    ((processMtpBufferStr [] (jstr "PartialDeletion")).1 =
        ⟨some (jstr "The path is inaccessible."), true, true, true⟩ ∧
      jstr "The path is inaccessible." ≠
        sanitizeErrors (some (jsOrStr (jstr "PartialDeletion") []))) ∧
    (processMtpBufferStr [] (jstr "could not find x; No MTP device found")).1 =
      ⟨some (jstr "No MTP device found."), false, false, false⟩ := by decide

/-- Claim C6 (amended): when none of the higher-priority MTP patterns
(no-MTP-device, InvalidObjectHandle, InvalidStorageID, WritePipe,
storage-not-accessible) matches, each of FileNotFound, NoSuchFile,
NoFilesSelected/InvalidPath and PartialDeletion yields `status: true`;
FileNotFound and NoFilesSelected/InvalidPath carry the sanitized raw
text (stderr preferred over error), while NoSuchFile and PartialDeletion
carry the fixed messages `"File not found! Try again."` and
`"The path is inaccessible."`. -/
theorem claimC6_amended (e s : JStr)
    (h1 : checkErrorMtp e s .noMtp = false)
    (h2 : checkErrorMtp e s .invalidObjectHandle = false)
    (h3 : checkErrorMtp e s .invalidStorageID = false)
    (h4 : checkErrorMtp e s .writePipe = false)
    (h5 : checkErrorMtp e s .mtpStorageNotAccessible1 = false)
    (h6 : checkErrorMtp e s .mtpStorageNotAccessible2 = false) :
    (checkErrorMtp e s .fileNotFound = true →
      (processMtpBufferStr e s).1 =
        ⟨some (sanitizeErrors (some (jsOrStr s e))), true, true, true⟩) ∧
    (checkErrorMtp e s .fileNotFound = false →
      checkErrorMtp e s .noSuchFiles = true →
      (processMtpBufferStr e s).1 =
        ⟨some (jstr "File not found! Try again."), true, true, true⟩) ∧
    (checkErrorMtp e s .fileNotFound = false →
      checkErrorMtp e s .noSuchFiles = false →
      (checkErrorMtp e s .noFilesSelected = true ∨
        checkErrorMtp e s .invalidPath = true) →
      (processMtpBufferStr e s).1 =
        ⟨some (sanitizeErrors (some (jsOrStr s e))), true, true, true⟩) ∧
    (checkErrorMtp e s .fileNotFound = false →
      checkErrorMtp e s .noSuchFiles = false →
      checkErrorMtp e s .noFilesSelected = false →
      checkErrorMtp e s .invalidPath = false →
      checkErrorMtp e s .partialDeletion = true →
      (processMtpBufferStr e s).1 =
        ⟨some (jstr "The path is inaccessible."), true, true, true⟩) := by
  refine ⟨?_, ?_, ?_, ?_⟩
  · intro hfnf
    have hne : ¬(e = [] ∧ s = []) := by
      rintro ⟨rfl, rfl⟩
      rw [checkErrorMtp_nil] at hfnf
      exact Bool.noConfusion hfnf
    unfold processMtpBufferStr
    rw [if_neg hne, if_neg (by simp [h1]), if_neg (by simp [h2]),
      if_neg (by simp [h3]), if_neg (by simp [h4]),
      if_neg (by simp [h5, h6]), if_pos hfnf]
  · intro hfnf hnsf
    have hne : ¬(e = [] ∧ s = []) := by
      rintro ⟨rfl, rfl⟩
      rw [checkErrorMtp_nil] at hnsf
      exact Bool.noConfusion hnsf
    unfold processMtpBufferStr
    rw [if_neg hne, if_neg (by simp [h1]), if_neg (by simp [h2]),
      if_neg (by simp [h3]), if_neg (by simp [h4]),
      if_neg (by simp [h5, h6]), if_neg (by simp [hfnf]), if_pos hnsf]
    rfl
  · intro hfnf hnsf hsel
    have hne : ¬(e = [] ∧ s = []) := by
      rintro ⟨rfl, rfl⟩
      rcases hsel with h | h <;>
        (rw [checkErrorMtp_nil] at h; exact Bool.noConfusion h)
    unfold processMtpBufferStr
    rw [if_neg hne, if_neg (by simp [h1]), if_neg (by simp [h2]),
      if_neg (by simp [h3]), if_neg (by simp [h4]),
      if_neg (by simp [h5, h6]), if_neg (by simp [hfnf]),
      if_neg (by simp [hnsf]), if_pos hsel]
  · intro hfnf hnsf hnfs hip hpd
    have hne : ¬(e = [] ∧ s = []) := by
      rintro ⟨rfl, rfl⟩
      rw [checkErrorMtp_nil] at hpd
      exact Bool.noConfusion hpd
    unfold processMtpBufferStr
    rw [if_neg hne, if_neg (by simp [h1]), if_neg (by simp [h2]),
      if_neg (by simp [h3]), if_neg (by simp [h4]),
      if_neg (by simp [h5, h6]), if_neg (by simp [hfnf]),
      if_neg (by simp [hnsf]), if_neg (by simp [hnfs, hip]), if_pos hpd]
    rfl

/-- Witness for claim C6: the amended statement's FileNotFound case at
the concrete input `{error: null, stderr: "could not find /tmp/x"}`. -/
theorem claimC6_amended_witness :
    (processMtpBufferStr [] (jstr "could not find /tmp/x")).1 =
      ⟨some (sanitizeErrors (some (jsOrStr (jstr "could not find /tmp/x") []))),
        true, true, true⟩ :=
  (claimC6_amended [] (jstr "could not find /tmp/x") (by decide) (by decide)
    (by decide) (by decide) (by decide) (by decide)).1 (by decide)

/-- Claim C7: any MTP input whose error or stderr contains
`"No MTP device found"` (case-insensitive) — even when lower-priority
pattern substrings also appear — yields exactly `{error: "No MTP device
found.", throwAlert: false, logError: false, status: false}`
(first-match-wins ordering). -/
theorem claimC7_noMtp_first (e s : JStr)
    (h : checkErrorMtp e s .noMtp = true) :
    (processMtpBufferStr e s).1 =
      ⟨some (jstr "No MTP device found."), false, false, false⟩ := by
  have hne : ¬(e = [] ∧ s = []) := by
    rintro ⟨rfl, rfl⟩
    rw [checkErrorMtp_nil] at h
    exact Bool.noConfusion h
  unfold processMtpBufferStr
  rw [if_neg hne, if_pos h]
  rfl

/-- Witness for claim C7: an input containing both the no-MTP-device
substring and a lower-priority substring still resolves to NoDevice. -/
theorem claimC7_witness :
    (processMtpBufferStr (jstr "No MTP device found; error: storage") []).1 =
      ⟨some (jstr "No MTP device found."), false, false, false⟩ :=
  claimC7_noMtp_first (jstr "No MTP device found; error: storage") []
    (by decide)

/-- Claim C8: when both fields are null or coerce to the empty string,
each classifier returns its silent-success result (error null, no alert,
`status: true` on the MTP channel) and emits no log entry. -/
theorem claimC8_silent (e s : JSVal)
    (he : stringifyField e = []) (hs : stringifyField s = []) :
    processMtpBuffer e s = (⟨none, false, true, true⟩, none) ∧
    processLocalBuffer e s = (Except.ok ⟨none, false, true, none⟩, none) := by
  unfold processMtpBuffer processLocalBuffer
  rw [he, hs]
  exact ⟨rfl, rfl⟩

/-- Witness for claim C8: both classifiers at `{error: null,
stderr: ""}`. -/
theorem claimC8_silent_witness :
    processMtpBuffer .jsNull (.str []) = (⟨none, false, true, true⟩, none) ∧
    processLocalBuffer .jsNull (.str []) =
      (Except.ok ⟨none, false, true, none⟩, none) :=
  claimC8_silent .jsNull (.str []) rfl rfl

/-- Claim C10: on both channels the silent-success result carries
`logError: true` even though nothing is logged on that path (the log
output is `none`). -/
theorem claimC10_silent_logError (e s : JSVal)
    (he : stringifyField e = []) (hs : stringifyField s = []) :
    ((processMtpBuffer e s).1.logError = true ∧
      (processMtpBuffer e s).2 = none) ∧
    ((processLocalBuffer e s).1 =
        Except.ok ⟨none, false, true, none⟩ ∧
      (processLocalBuffer e s).2 = none ∧
      (∀ r, (processLocalBuffer e s).1 = Except.ok r → r.logError = true)) := by
  unfold processMtpBuffer processLocalBuffer
  rw [he, hs]
  refine ⟨⟨rfl, rfl⟩, rfl, rfl, ?_⟩
  intro r hr
  have hr' : Except.ok (⟨none, false, true, none⟩ : LocalResult) =
    Except.ok r := hr
  injection hr' with h
  rw [← h]

/-- Witness for claim C10: the silent path at `{error: Error("",""),
stderr: null}` (an Error whose string coercion is empty). -/
theorem claimC10_witness :
    ((processMtpBuffer (.errObj [] []) .jsNull).1.logError = true ∧
      (processMtpBuffer (.errObj [] []) .jsNull).2 = none) ∧
    ((processLocalBuffer (.errObj [] []) .jsNull).1 =
        Except.ok ⟨none, false, true, none⟩ ∧
      (processLocalBuffer (.errObj [] []) .jsNull).2 = none ∧
      (∀ r, (processLocalBuffer (.errObj [] []) .jsNull).1 = Except.ok r →
        r.logError = true)) :=
  claimC10_silent_logError (.errObj [] []) .jsNull rfl rfl

end OpenMTP
